import Mathlib

/-!
Shallow embedding of the recipe-analysis core:
`src/backend/utils/calorie_estimator.py`, `src/backend/utils/difficulty_analyzer.py`,
`src/utils/time_predictor.py`, `src/utils/suggestion_generator.py`.

Strings are modelled as `List Char`; Python floats as `ℚ` (every constant the
claims exercise is an exactly representable binary fraction, so the rational
model agrees with CPython float arithmetic on them); Python `round` is
round-half-to-even (banker's rounding), as CPython implements it.
-/

set_option maxRecDepth 8192

namespace Recipe

/-- ASCII decimal digit, the characters Python's `\d` matches on these inputs. -/
def isDigitC (c : Char) : Bool := '0' ≤ c && c ≤ '9'

/-- Lowercase ASCII letter, exactly the regex class `[a-z]`. -/
def isLowerAZ (c : Char) : Bool := 'a' ≤ c && c ≤ 'z'

/-- Whitespace as matched by Python's `\s` and `str.strip()` on ASCII text:
space, tab, newline, carriage return, vertical tab, form feed. -/
def isSpaceC (c : Char) : Bool :=
  c == ' ' || c == '\t' || c == '\n' || c == '\r' ||
  c == Char.ofNat 11 || c == Char.ofNat 12

/-- ASCII lowercasing, the effect of Python `str.lower()` on the inputs used here. -/
def toLowerC (c : Char) : Char :=
  if 'A' ≤ c && c ≤ 'Z' then Char.ofNat (c.toNat + 32) else c

/-- `str.strip()` from the left. -/
def stripL (s : List Char) : List Char := s.dropWhile isSpaceC

/-- `str.strip()` on both ends. -/
def stripBoth (s : List Char) : List Char := (stripL ((stripL s).reverse)).reverse

/-- `pat` is a prefix of `s` (used to model regex literal matching). -/
def startsWith : List Char → List Char → Bool
  | [], _ => true
  | _ :: _, [] => false
  | a :: as, b :: bs => a == b && startsWith as bs

/-- Python's substring test `needle in hay`. -/
def occursIn (needle : List Char) : List Char → Bool
  | [] => needle == []
  | c :: rest => startsWith needle (c :: rest) || occursIn needle rest

/-- `str.split('\n')`: Python returns `[""]` on the empty string. -/
def splitNL : List Char → List (List Char)
  | [] => [[]]
  | c :: rest =>
    if c == '\n' then [] :: splitNL rest
    else
      match splitNL rest with
      | [] => [[c]]
      | l :: ls => (c :: l) :: ls

/-- Value of a run of decimal digits, as Python `int()` parses it. -/
def parseDigits (cs : List Char) : ℕ :=
  cs.foldl (fun a c => a * 10 + (c.toNat - 48)) 0

/-- Digits of a natural number, most significant first (fuel-driven; the fuel
`n+1` always suffices since each division by 10 strictly shrinks a positive
argument). Models Python's decimal formatting of a nonnegative int. -/
def natCharsAux : ℕ → ℕ → List Char
  | 0, _ => []
  | fuel + 1, n =>
    if n < 10 then [Char.ofNat (48 + n)]
    else natCharsAux fuel (n / 10) ++ [Char.ofNat (48 + n % 10)]

/-- Decimal rendering of a natural number, as an f-string interpolates it. -/
def natChars (n : ℕ) : List Char := natCharsAux (n + 1) n

/-- Floor of a rational as an integer (`Int.fdiv` floors; `Rat` keeps `den > 0`). -/
def ratFloor (x : ℚ) : ℤ := Int.fdiv x.num (x.den : ℤ)

/-- CPython `round(x)`: nearest integer, ties to the even neighbour. -/
def pyRound (x : ℚ) : ℤ :=
  let f := ratFloor x
  let frac := x - (f : ℚ)
  if frac < 1 / 2 then f
  else if 1 / 2 < frac then f + 1
  else if f % 2 = 0 then f else f + 1

/-- CPython `round(x, 1)`: nearest multiple of 1/10, ties to even. -/
def round1 (x : ℚ) : ℚ := (pyRound (x * 10) : ℚ) / 10

/-!
### QuantityParser — `CalorieEstimator.extract_quantity`

The source matches `re.match(r'(\d+\.?\d*)\s*([a-z]+)?\s+(.+)', line)`.  The
functions below reproduce the backtracking engine's behaviour for exactly this
pattern, trying longer alternatives first as the engine does.
-/

/-- Group 1, `(\d+\.?\d*)`, matched greedily at the start of the string.
Returns the captured characters and the remainder.  No backtracking into this
group can ever help: a shorter capture leaves a digit or `'.'` as the next
character, on which the rest of the pattern (`\s*([a-z]+)?\s+…`, which can
only consume whitespace and lowercase letters before requiring whitespace)
necessarily fails. -/
def matchNumber (s : List Char) : Option (List Char × List Char) :=
  let d1 := s.takeWhile isDigitC
  if d1 == [] then none
  else
    match s.drop d1.length with
    | '.' :: r2 =>
      let d2 := r2.takeWhile isDigitC
      some (d1 ++ '.' :: d2, r2.drop d2.length)
    | r1 => some (d1, r1)

/-- `\s+(.+)` at `s`, where the whitespace run at `s` has length ≥ the first
argument: the engine tries the longest `\s+` first and gives back one character
at a time; `(.+)` then greedily captures the maximal run of non-newline
characters, which must be nonempty. -/
def tryWsDot : ℕ → List Char → Option (List Char)
  | 0, _ => none
  | k + 1, s =>
    match s.drop (k + 1) with
    | [] => tryWsDot k s
    | c :: rest =>
      if c == '\n' then tryWsDot k s
      else some ((c :: rest).takeWhile (fun x => !(x == '\n')))

/-- `([a-z]+)?\s+(.+)` at `s`: the optional group is tried at its maximal
length first, then shorter, then absent — the engine's preference order. -/
def tryUnitTail : ℕ → List Char → Option (Option (List Char) × List Char)
  | 0, s =>
    (tryWsDot (s.takeWhile isSpaceC).length s).map (fun g3 => (none, g3))
  | b + 1, s =>
    let s2 := s.drop (b + 1)
    match tryWsDot (s2.takeWhile isSpaceC).length s2 with
    | some g3 => some (some (s.take (b + 1)), g3)
    | none => tryUnitTail b s

/-- `\s*([a-z]+)?\s+(.+)` at `s`: `\s*` is tried at each length from the full
whitespace run down to zero (longest first, as the engine backtracks). -/
def tryStarTail : ℕ → List Char → Option (Option (List Char) × List Char)
  | 0, s => tryUnitTail (s.takeWhile isLowerAZ).length s
  | a + 1, s =>
    match tryUnitTail ((s.drop (a + 1)).takeWhile isLowerAZ).length (s.drop (a + 1)) with
    | some r => some r
    | none => tryStarTail a s

/-- The three captured groups of the quantity pattern. -/
structure QMatch where
  g1 : List Char
  g2 : Option (List Char)
  g3 : List Char
deriving DecidableEq, Repr

/-- `re.match(r'(\d+\.?\d*)\s*([a-z]+)?\s+(.+)', s)`. -/
def pyMatchQuantity (s : List Char) : Option QMatch :=
  match matchNumber s with
  | none => none
  | some (g1, r) =>
    match tryStarTail (r.takeWhile isSpaceC).length r with
    | some (g2, g3) => some ⟨g1, g2, g3⟩
    | none => none

/-- `float()` applied to a string of shape `\d+\.?\d*` (all group-1 captures). -/
def parseNum (cs : List Char) : ℚ :=
  let ip := cs.takeWhile isDigitC
  match cs.drop ip.length with
  | '.' :: fp => (parseDigits ip : ℚ) + (parseDigits fp : ℚ) / (10 : ℚ) ^ fp.length
  | _ => (parseDigits ip : ℚ)

/-- `CalorieEstimator.MEASUREMENT_CONVERSIONS`, in source order. -/
def MEASUREMENT_CONVERSIONS : List (List Char × ℚ) :=
  [("cup".toList, 240), ("cups".toList, 240),
   ("tablespoon".toList, 15), ("tablespoons".toList, 15), ("tbsp".toList, 15),
   ("teaspoon".toList, 5), ("teaspoons".toList, 5), ("tsp".toList, 5),
   ("ounce".toList, 28), ("ounces".toList, 28), ("oz".toList, 28),
   ("pound".toList, 454), ("pounds".toList, 454), ("lb".toList, 454), ("lbs".toList, 454),
   ("gram".toList, 1), ("grams".toList, 1), ("g".toList, 1),
   ("kilogram".toList, 1000), ("kilograms".toList, 1000), ("kg".toList, 1000),
   ("piece".toList, 100), ("pieces".toList, 100),
   ("clove".toList, 3), ("cloves".toList, 3)]

/-- Exact-key dictionary lookup. -/
def lookupConv (m : List Char) : Option ℚ :=
  (MEASUREMENT_CONVERSIONS.find? (fun kv => kv.1 == m)).map (fun kv => kv.2)

/-- `CalorieEstimator.extract_quantity`: lowercase and strip the line, run the
quantity pattern; on a match convert with
`MEASUREMENT_CONVERSIONS.get(measurement, 100)` where a missing unit group
defaults the measurement to `'gram'`; with no match return `(100, line)`. -/
def extract_quantity (ingredient_line : List Char) : ℚ × List Char :=
  let line := stripBoth (ingredient_line.map toLowerC)
  match pyMatchQuantity line with
  | some m =>
    let quantity := parseNum m.g1
    let measurement := m.g2.getD ("gram".toList)
    let ingredient := stripBoth m.g3
    let conversion_factor := (lookupConv measurement).getD 100
    (quantity * conversion_factor, ingredient)
  | none => (100, line)

/-- `CalorieEstimator.CALORIE_DATABASE`, in source (insertion) order. -/
def CALORIE_DATABASE : List (List Char × ℚ) :=
  [("chicken".toList, 165), ("chicken breast".toList, 165), ("chicken thigh".toList, 209),
   ("beef".toList, 250), ("ground beef".toList, 250), ("steak".toList, 271),
   ("pork".toList, 242), ("bacon".toList, 541), ("ham".toList, 145),
   ("fish".toList, 206), ("salmon".toList, 208), ("tuna".toList, 132), ("shrimp".toList, 99),
   ("egg".toList, 155), ("eggs".toList, 155), ("tofu".toList, 76),
   ("milk".toList, 42), ("cream".toList, 340), ("heavy cream".toList, 340), ("cheese".toList, 402),
   ("cheddar".toList, 403), ("mozzarella".toList, 280), ("parmesan".toList, 431),
   ("butter".toList, 717), ("yogurt".toList, 59), ("greek yogurt".toList, 59),
   ("rice".toList, 130), ("white rice".toList, 130), ("brown rice".toList, 111),
   ("pasta".toList, 131), ("spaghetti".toList, 131), ("noodles".toList, 138),
   ("bread".toList, 265), ("flour".toList, 364), ("wheat flour".toList, 364),
   ("oats".toList, 389), ("quinoa".toList, 120), ("couscous".toList, 112),
   ("potato".toList, 77), ("potatoes".toList, 77), ("sweet potato".toList, 86),
   ("tomato".toList, 18), ("tomatoes".toList, 18), ("onion".toList, 40), ("onions".toList, 40),
   ("garlic".toList, 149), ("carrot".toList, 41), ("carrots".toList, 41),
   ("broccoli".toList, 34), ("spinach".toList, 23), ("lettuce".toList, 15),
   ("bell pepper".toList, 31), ("mushroom".toList, 22), ("mushrooms".toList, 22),
   ("cucumber".toList, 15), ("zucchini".toList, 17), ("eggplant".toList, 25),
   ("cauliflower".toList, 25), ("cabbage".toList, 25), ("kale".toList, 49),
   ("apple".toList, 52), ("banana".toList, 89), ("orange".toList, 47),
   ("strawberry".toList, 32), ("blueberry".toList, 57), ("mango".toList, 60),
   ("avocado".toList, 160), ("lemon".toList, 29), ("lime".toList, 30),
   ("oil".toList, 884), ("olive oil".toList, 884), ("vegetable oil".toList, 884),
   ("coconut oil".toList, 862), ("ghee".toList, 900),
   ("almond".toList, 579), ("almonds".toList, 579), ("peanut".toList, 567),
   ("cashew".toList, 553), ("walnut".toList, 654), ("sesame".toList, 573),
   ("salt".toList, 0), ("pepper".toList, 251), ("sugar".toList, 387),
   ("honey".toList, 304), ("soy sauce".toList, 53), ("vinegar".toList, 18),
   ("ketchup".toList, 112), ("mayonnaise".toList, 680), ("mustard".toList, 66),
   ("beans".toList, 127), ("black beans".toList, 132), ("kidney beans".toList, 127),
   ("lentils".toList, 116), ("chickpeas".toList, 164), ("peas".toList, 81),
   ("water".toList, 0), ("stock".toList, 10), ("broth".toList, 10),
   ("wine".toList, 85), ("beer".toList, 43), ("coconut milk".toList, 230)]

/-- `CalorieEstimator.find_ingredient_match`: exact key lookup, else the first
key (in insertion order) that is a substring of the name or vice versa, else
the 150-calorie fallback. -/
def find_ingredient_match (ingredient_name : List Char) : ℚ :=
  let ingredient_lower := ingredient_name.map toLowerC
  match CALORIE_DATABASE.find? (fun kv => kv.1 == ingredient_lower) with
  | some kv => kv.2
  | none =>
    match CALORIE_DATABASE.find? (fun kv =>
        occursIn kv.1 ingredient_lower || occursIn ingredient_lower kv.1) with
    | some kv => kv.2
    | none => 150

/-- One entry of the `breakdown` list built by `estimate_calories`. -/
structure BreakdownItem where
  ingredient : List Char
  estimated_grams : ℚ
  calories : ℚ
deriving DecidableEq, Repr

/-- The dictionary returned by `estimate_calories`. -/
structure CalorieAnalysis where
  total_calories : ℤ
  breakdown : List BreakdownItem
  servings_estimate : ℕ
deriving DecidableEq, Repr

/-- The loop guard `if not ingredient.strip(): continue`. -/
def nonBlank (s : List Char) : Bool := !(stripBoth s == [])

/-- The loop body of `estimate_calories`: running calorie total and breakdown
list over the input lines (the total is accumulated head-first here; rational
addition is associative and commutative, so it equals Python's left-to-right
sum). -/
def estimateLines : List (List Char) → ℚ × List BreakdownItem
  | [] => (0, [])
  | ingredient :: rest =>
    if nonBlank ingredient then
      let qn := extract_quantity ingredient
      let calories_per_100g := find_ingredient_match qn.2
      let ingredient_calories := calories_per_100g * qn.1 / 100
      let r := estimateLines rest
      (ingredient_calories + r.1,
       ⟨stripBoth ingredient, round1 qn.1, round1 ingredient_calories⟩ :: r.2)
    else estimateLines rest

/-- `CalorieEstimator.estimate_calories`: the total is `round` of the running
(unrounded) sum; breakdown entries carry grams and calories rounded to one
decimal; `servings_estimate = max(1, len(ingredients_list) // 3)`. -/
def estimate_calories (ingredients_list : List (List Char)) : CalorieAnalysis :=
  let r := estimateLines ingredients_list
  ⟨pyRound r.1, r.2, max 1 (ingredients_list.length / 3)⟩

/-- Per-line unrounded calories, as computed inside the loop. -/
def lineCalories (s : List Char) : ℚ :=
  find_ingredient_match (extract_quantity s).2 * (extract_quantity s).1 / 100

/-- Per-line breakdown entry. -/
def lineItem (s : List Char) : BreakdownItem :=
  ⟨stripBoth s, round1 (extract_quantity s).1, round1 (lineCalories s)⟩

/-!
### DifficultyAnalyzer — `src/backend/utils/difficulty_analyzer.py`
-/

/-- One attempt of the pattern `\d+[\.\)]\s+` at the start of `s`: maximal
digit run (a shorter run would leave a digit where `[\.\)]` must match, so the
engine's backtracking cannot help), one of `'.'`/`')'`, then a nonempty
whitespace run (maximal; nothing follows, so no backtracking).  Returns the
number of characters consumed (always ≥ 3). -/
def tryMarker (s : List Char) : Option ℕ :=
  let d := s.takeWhile isDigitC
  if d == [] then none
  else
    match s.drop d.length with
    | c :: rest =>
      if c == '.' || c == ')' then
        let w := rest.takeWhile isSpaceC
        if w == [] then none else some (d.length + 1 + w.length)
      else none
    | [] => none

/-- `re.findall(r'\d+[\.\)]\s+', text)` match count: scan left to right,
jumping over each (non-overlapping) match.  Fuel-driven; every step consumes
at least one character, so fuel `|s|` suffices. -/
def markerScanAux : ℕ → List Char → ℕ
  | 0, _ => 0
  | fuel + 1, s =>
    match s with
    | [] => 0
    | _ :: rest =>
      match tryMarker s with
      | some k => 1 + markerScanAux fuel (s.drop k)
      | none => markerScanAux fuel rest

/-- Number of matches of `\d+[\.\)]\s+` anywhere in the text. -/
def markerScan (s : List Char) : ℕ := markerScanAux s.length s

/-- Count of non-empty stripped lines, the list comprehension in `count_steps`. -/
def lineCount (steps_text : List Char) : ℕ :=
  (((splitNL steps_text).map stripBoth).filter (fun l => !(l == []))).length

/-- `DifficultyAnalyzer.count_steps`. -/
def count_steps (steps_text : List Char) : ℕ :=
  if steps_text = [] then 0
  else max (lineCount steps_text) (markerScan steps_text)

/-- Modelled from the claim's wording, not from the source: the number of
numbered-step markers of the form `<digits>.` or `<digits>)` occurring at
line starts.  Used only to exhibit where the claim diverges from the code. -/
def claimLineStartMarkers (t : List Char) : ℕ :=
  ((splitNL t).filter (fun l =>
    let d := l.takeWhile isDigitC
    !(d == []) &&
      (match l.drop d.length with
       | c :: _ => c == '.' || c == ')'
       | [] => false))).length

/-- `DifficultyAnalyzer.COMPLEX_TECHNIQUES`, in source order (the source list
really does contain `'braise'` twice, so a text containing it scores +6). -/
def COMPLEX_TECHNIQUES : List (List Char) :=
  [("fold".toList), ("temper".toList), ("caramelize".toList), ("julienne".toList),
   ("deglaze".toList), ("braise".toList),
   ("sous vide".toList), ("emulsify".toList), ("flambe".toList), ("reduce".toList),
   ("blanch".toList), ("poach".toList),
   ("sear".toList), ("sauté".toList), ("roast".toList), ("braise".toList),
   ("confit".toList), ("marinate overnight".toList),
   ("knead".toList), ("proof".toList), ("ferment".toList), ("clarify".toList),
   ("strain".toList), ("rest dough".toList)]

/-- `DifficultyAnalyzer.MODERATE_TECHNIQUES`, in source order. -/
def MODERATE_TECHNIQUES : List (List Char) :=
  [("simmer".toList), ("whisk".toList), ("brown".toList), ("season".toList),
   ("coat".toList), ("toss".toList),
   ("marinate".toList), ("chill".toList), ("grill".toList), ("bake".toList),
   ("steam".toList), ("drain".toList)]

/-- First-occurrence deduplication.  The source builds `list(set(found))`,
whose ordering is a fixed deterministic function of the elements within one
CPython process; this model fixes first-insertion order as that order.  No
claim depends on the particular order, only on determinism and cardinality. -/
def dedupAux : List (List Char) → List (List Char) → List (List Char)
  | _, [] => []
  | seen, x :: xs =>
    if seen.contains x then dedupAux seen xs else x :: dedupAux (x :: seen) xs

/-- `list(set(l))` under the order convention above. -/
def dedupFirst (l : List (List Char)) : List (List Char) := dedupAux [] l

/-- `DifficultyAnalyzer.analyze_complexity`: +3 per complex-technique list
entry found as a substring (duplicates in the table fire twice), +1 per
moderate one; returns the score and the de-duplicated techniques. -/
def analyze_complexity (steps_text : List Char) : ℕ × List (List Char) :=
  if steps_text = [] then (0, [])
  else
    let steps_lower := steps_text.map toLowerC
    let complexFound := COMPLEX_TECHNIQUES.filter (fun t => occursIn t steps_lower)
    let moderateFound := MODERATE_TECHNIQUES.filter (fun t => occursIn t steps_lower)
    (3 * complexFound.length + moderateFound.length, dedupFirst (complexFound ++ moderateFound))

/-- The dictionary returned by `analyze_difficulty`. -/
structure DifficultyAnalysis where
  difficulty : List Char
  score : ℕ
  description : List Char
  factors : List (List Char)
  techniques_found : List (List Char)
  ingredient_count : ℕ
  step_count : ℕ
deriving DecidableEq, Repr

/-- The ingredient-count score tier of `analyze_difficulty`. -/
def ingredientScore (ingredient_count : ℕ) : ℕ :=
  if ingredient_count ≤ 5 then 1 else if ingredient_count ≤ 10 then 2 else 3

/-- The step-count score tier of `analyze_difficulty`. -/
def stepScore (step_count : ℕ) : ℕ :=
  if step_count ≤ 3 then 1 else if step_count ≤ 6 then 2 else 3

/-- `DifficultyAnalyzer.analyze_difficulty`. -/
def analyze_difficulty (ingredients_list : List (List Char)) (steps_text : List Char) :
    DifficultyAnalysis :=
  let ingredient_count := (ingredients_list.filter (fun i => !(stripBoth i == []))).length
  let ingredient_score := ingredientScore ingredient_count
  let step_count := count_steps steps_text
  let step_score := stepScore step_count
  let ac := analyze_complexity steps_text
  let technique_score := min 3 (ac.1 / 2)
  let total_score := ingredient_score + step_score + technique_score
  let difficulty :=
    if total_score ≤ 4 then "Beginner".toList
    else if total_score ≤ 7 then "Intermediate".toList
    else "Advanced".toList
  let description :=
    if total_score ≤ 4 then "Simple recipe perfect for cooking beginners".toList
    else if total_score ≤ 7 then "Moderate difficulty, some cooking experience helpful".toList
    else "Complex recipe requiring culinary skills and patience".toList
  let factors :=
    [natChars ingredient_count ++ " ingredients".toList,
     natChars step_count ++ " steps".toList] ++
    (if ac.2 ≠ [] then
      [("requires ".toList) ++ natChars ac.2.length ++ (" cooking technique(s)".toList)]
     else [])
  ⟨difficulty, total_score, description, factors, ac.2.take 5, ingredient_count, step_count⟩

/-!
### TimePredictor — `src/utils/time_predictor.py`
-/

/-- One attempt of `(\d+)\s*(w₁|w₂|…)` at the start of `s`, the words tried in
the regex engine's preference order (longest alternative first, as in
`hours?` = `hours`, `hour`).  A shorter digit run or whitespace run cannot
rescue a failed attempt (it would leave a digit resp. a whitespace character
where a letter must match), so only the maximal runs are tried.  Returns the
parsed number and the characters consumed. -/
def tryNumWord (words : List (List Char)) (s : List Char) : Option (ℕ × ℕ) :=
  let d := s.takeWhile isDigitC
  if d == [] then none
  else
    let r1 := s.drop d.length
    let w := r1.takeWhile isSpaceC
    let r2 := r1.drop w.length
    match words.find? (fun word => startsWith word r2) with
    | some word => some (parseDigits d, d.length + w.length + word.length)
    | none => none

/-- `re.findall` for the pattern above: left-to-right scan, continuing after
each non-overlapping match; fuel `|s|` suffices since every step consumes at
least one character.  Returns the matched numbers in order. -/
def scanNumWordAux (words : List (List Char)) : ℕ → List Char → List ℕ
  | 0, _ => []
  | fuel + 1, s =>
    match s with
    | [] => []
    | _ :: rest =>
      match tryNumWord words s with
      | some (v, k) => v :: scanNumWordAux words fuel (s.drop k)
      | none => scanNumWordAux words fuel rest

/-- All numbers captured by `re.findall((\d+)\s*(w₁|…), s)`. -/
def scanNumWord (words : List (List Char)) (s : List Char) : List ℕ :=
  scanNumWordAux words s.length s

/-- `TimePredictor.extract_explicit_time`: hours ×60 plus minutes plus
seconds ÷60, rounded at the end (`round` returns an int; the sum is
nonnegative, so `Int.toNat` is lossless). -/
def extract_explicit_time (steps_text : List Char) : ℕ :=
  if steps_text = [] then 0
  else
    let steps_lower := steps_text.map toLowerC
    let hours := scanNumWord [("hours".toList), ("hour".toList)] steps_lower
    let minutes := scanNumWord
      [("minutes".toList), ("minute".toList), ("mins".toList), ("min".toList)] steps_lower
    let seconds := scanNumWord
      [("seconds".toList), ("second".toList), ("secs".toList), ("sec".toList)] steps_lower
    let total : ℚ := ((hours.map (fun h => (h : ℚ) * 60)).sum)
      + ((minutes.map (fun m => (m : ℚ))).sum)
      + ((seconds.map (fun s => (s : ℚ) / 60)).sum)
    (pyRound total).toNat

/-- `TimePredictor.COOKING_METHOD_TIME`, in source (insertion) order. -/
def COOKING_METHOD_TIME : List (List Char × ℕ) :=
  [("bake".toList, 30), ("baking".toList, 30),
   ("roast".toList, 45), ("roasting".toList, 45),
   ("braise".toList, 120), ("braising".toList, 120),
   ("simmer".toList, 30), ("simmering".toList, 30),
   ("boil".toList, 15), ("boiling".toList, 15),
   ("fry".toList, 10), ("frying".toList, 10),
   ("sauté".toList, 10), ("sautéing".toList, 10),
   ("grill".toList, 20), ("grilling".toList, 20),
   ("steam".toList, 15), ("steaming".toList, 15),
   ("marinate overnight".toList, 480),
   ("marinate".toList, 30),
   ("chill".toList, 60), ("refrigerate".toList, 60),
   ("freeze".toList, 120),
   ("rest".toList, 10), ("proof".toList, 60)]

/-- `TimePredictor.estimate_from_methods`: sum the durations of every table
key found as a substring of the lowercased text, collecting the matched keys
in table order. -/
def estimate_from_methods (steps_text : List Char) : ℕ × List (List Char) :=
  if steps_text = [] then (0, [])
  else
    let steps_lower := steps_text.map toLowerC
    let found := COOKING_METHOD_TIME.filter (fun kv => occursIn kv.1 steps_lower)
    ((found.map (fun kv => kv.2)).sum, found.map (fun kv => kv.1))

/-- `TimePredictor.estimate_from_steps`: five minutes of prep per step. -/
def estimate_from_steps (step_count : ℕ) : ℕ := step_count * 5

/-- The total before/after the minimum clamp in `predict_time`. -/
def totalMinutes (steps_text : List Char) (step_count : ℕ) : ℕ :=
  max 10
    (if 0 < extract_explicit_time steps_text then extract_explicit_time steps_text
     else estimate_from_steps step_count + (estimate_from_methods steps_text).1)

/-- The dictionary returned by `predict_time`. -/
structure TimeAnalysis where
  category : List Char
  total_minutes : ℕ
  time_display : List Char
  description : List Char
  explicit_time_found : Bool
  methods_detected : List (List Char)
deriving DecidableEq, Repr

/-- `TimePredictor.predict_time`. -/
def predict_time (steps_text : List Char) (step_count : ℕ) : TimeAnalysis :=
  let total := totalMinutes steps_text step_count
  let category :=
    if total ≤ 30 then "Quick".toList
    else if total ≤ 60 then "Medium".toList
    else "Long".toList
  let description :=
    if total ≤ 30 then "Ready in 30 minutes or less".toList
    else if total ≤ 60 then "Takes about 30-60 minutes".toList
    else ("Takes over an hour (about ".toList) ++ natChars (total / 60)
      ++ ("h ".toList) ++ natChars (total % 60) ++ ("m)".toList)
  let hours := total / 60
  let minutes := total % 60
  let time_display :=
    if 0 < hours then natChars hours ++ ("h ".toList) ++ natChars minutes ++ ("m".toList)
    else natChars minutes ++ ("m".toList)
  ⟨category, total, time_display, description,
   decide (0 < extract_explicit_time steps_text),
   ((estimate_from_methods steps_text).2).take 3⟩

/-!
### SuggestionGenerator — `src/utils/suggestion_generator.py`
-/

/-- `' '.join(ingredients_list)`. -/
def joinSpace : List (List Char) → List Char
  | [] => []
  | [x] => x
  | x :: xs => x ++ ' ' :: joinSpace xs

/-- The joined, lowercased ingredient text every generator method scans. -/
def ingredientsLower (ingredients_list : List (List Char)) : List Char :=
  (joinSpace ingredients_list).map toLowerC

/-- `SuggestionGenerator.MEAT_INGREDIENTS`, in source order. -/
def MEAT_INGREDIENTS : List (List Char) :=
  [("chicken".toList), ("beef".toList), ("pork".toList), ("lamb".toList),
   ("turkey".toList), ("duck".toList),
   ("fish".toList), ("salmon".toList), ("tuna".toList), ("shrimp".toList),
   ("prawn".toList), ("crab".toList),
   ("bacon".toList), ("ham".toList), ("sausage".toList), ("meat".toList)]

/-- The `dairy_items` list local to `detect_diet_type`. -/
def dairy_items : List (List Char) :=
  [("milk".toList), ("cheese".toList), ("butter".toList), ("cream".toList),
   ("yogurt".toList), ("ghee".toList), ("egg".toList)]

/-- `SuggestionGenerator.detect_diet_type`: meat keyword → Non-Vegetarian,
else dairy/egg keyword → Vegetarian, else Vegan (substring matching on the
joined lowercased text). -/
def detect_diet_type (ingredients_list : List (List Char)) : List Char :=
  let il := ingredientsLower ingredients_list
  let is_non_veg := MEAT_INGREDIENTS.any (fun m => occursIn m il)
  let has_dairy := dairy_items.any (fun d => occursIn d il)
  if is_non_veg then "Non-Vegetarian".toList
  else if has_dairy then "Vegetarian".toList
  else "Vegan".toList

/-- `SuggestionGenerator.HEALTHY_ALTERNATIVES`, in source (insertion) order. -/
def HEALTHY_ALTERNATIVES : List (List Char × List Char) :=
  [("butter".toList, "olive oil or avocado".toList),
   ("cream".toList, "Greek yogurt or coconut cream".toList),
   ("white rice".toList, "brown rice or quinoa".toList),
   ("pasta".toList, "whole wheat pasta or zucchini noodles".toList),
   ("sugar".toList, "honey or maple syrup".toList),
   ("oil".toList, "cooking spray or broth".toList),
   ("mayonnaise".toList, "Greek yogurt or avocado".toList),
   ("sour cream".toList, "Greek yogurt".toList),
   ("ground beef".toList, "ground turkey or lean beef".toList),
   ("bacon".toList, "turkey bacon".toList),
   ("cheese".toList, "reduced-fat cheese".toList),
   ("bread".toList, "whole grain bread".toList)]

/-- `SuggestionGenerator.generate_healthy_alternatives`. -/
def generate_healthy_alternatives (ingredients_list : List (List Char)) : List (List Char) :=
  let il := ingredientsLower ingredients_list
  ((HEALTHY_ALTERNATIVES.filter (fun kv => occursIn kv.1 il)).map
    (fun kv => ("Replace ".toList) ++ kv.1 ++ (" with ".toList) ++ kv.2)).take 3

/-- `SuggestionGenerator.SPICE_SUGGESTIONS`, in source (insertion) order. -/
def SPICE_SUGGESTIONS : List (List Char × List (List Char)) :=
  [("chicken".toList,
     [("paprika".toList), ("thyme".toList), ("rosemary".toList), ("garlic powder".toList)]),
   ("beef".toList,
     [("black pepper".toList), ("garlic".toList), ("rosemary".toList), ("oregano".toList)]),
   ("fish".toList,
     [("lemon".toList), ("dill".toList), ("parsley".toList), ("caper".toList)]),
   ("pasta".toList,
     [("basil".toList), ("oregano".toList), ("garlic".toList), ("parmesan".toList)]),
   ("rice".toList,
     [("cumin".toList), ("turmeric".toList), ("bay leaf".toList), ("cardamom".toList)]),
   ("vegetables".toList,
     [("garlic".toList), ("onion".toList), ("herbs".toList), ("chili flakes".toList)]),
   ("soup".toList,
     [("bay leaf".toList), ("thyme".toList), ("black pepper".toList), ("parsley".toList)])]

/-- `SuggestionGenerator.suggest_spices`: union (as a set, modelled in
first-insertion order — see `dedupFirst`) of the spice lists of every matching
key; the fixed default list when no key matches; at most four returned. -/
def suggest_spices (ingredients_list : List (List Char)) : List (List Char) :=
  let il := ingredientsLower ingredients_list
  let collected :=
    (SPICE_SUGGESTIONS.filter (fun kv => occursIn kv.1 il)).foldl
      (fun acc kv => acc ++ kv.2) []
  if collected = [] then
    [("salt".toList), ("black pepper".toList), ("garlic".toList), ("herbs".toList)]
  else (dedupFirst collected).take 4

/-- `SuggestionGenerator.generate_serving_tips` (`total_calories` and
`servings` are Python ints; their quotient is float division, modelled in ℚ). -/
def generate_serving_tips (difficulty : List Char) (total_calories : ℤ) (servings : ℤ) :
    List (List Char) :=
  let tips1 :=
    if difficulty = "Beginner".toList then
      [("Great recipe to start your cooking journey!".toList)]
    else if difficulty = "Advanced".toList then
      [("Take your time and follow each step carefully".toList)]
    else []
  let calories_per_serving : ℚ :=
    if 0 < servings then (total_calories : ℚ) / (servings : ℚ) else (total_calories : ℚ)
  let tips2 :=
    if 600 < calories_per_serving then
      [("This is a hearty meal - consider serving smaller portions".toList)]
    else if calories_per_serving < 300 then
      [("Light meal - perfect for lunch or as a side dish".toList)]
    else []
  (tips1 ++ tips2 ++
    [("Taste and adjust seasoning before serving".toList),
     ("Prepare ingredients (mise en place) before cooking".toList),
     ("Let the dish rest for a few minutes before serving".toList)]).take 3

/-- The dictionary returned by `generate_suggestions`. -/
structure SuggestionSet where
  diet_type : List Char
  meal_type : List Char
  healthy_alternatives : List (List Char)
  spice_suggestions : List (List Char)
  serving_tips : List (List Char)
  quick_tip : List Char
deriving DecidableEq, Repr

/-- `SuggestionGenerator.generate_suggestions` (the `steps_text` parameter is
unused, as in the source). -/
def generate_suggestions (ingredients_list : List (List Char)) (_steps_text : List Char)
    (difficulty : List Char) (total_calories : ℤ) (servings : ℤ) : SuggestionSet :=
  let diet_type := detect_diet_type ingredients_list
  let healthy_alternatives := generate_healthy_alternatives ingredients_list
  let spice_suggestions := suggest_spices ingredients_list
  let serving_tips := generate_serving_tips difficulty total_calories servings
  let il := ingredientsLower ingredients_list
  let meal_type :=
    if [("egg".toList), ("pancake".toList), ("cereal".toList), ("toast".toList)].any
        (fun w => occursIn w il) then "Breakfast".toList
    else if [("salad".toList), ("sandwich".toList), ("soup".toList)].any
        (fun w => occursIn w il) then "Lunch".toList
    else if [("steak".toList), ("roast".toList), ("casserole".toList)].any
        (fun w => occursIn w il) then "Dinner".toList
    else "Any time".toList
  ⟨diet_type, meal_type,
   (if healthy_alternatives = [] then [("Recipe looks healthy!".toList)]
    else healthy_alternatives),
   spice_suggestions, serving_tips,
   ("This is a ".toList) ++ diet_type.map toLowerC ++ (" ".toList)
     ++ meal_type.map toLowerC ++ (" recipe".toList)⟩

/-!
### Claim theorems
-/

/-- The loop of `estimate_calories` computes the sum of the unrounded
per-line calories and the per-line breakdown entries over the non-blank
lines, in input order. -/
theorem estimateLines_eq (l : List (List Char)) :
    estimateLines l =
      (((l.filter nonBlank).map lineCalories).sum, (l.filter nonBlank).map lineItem) := by
  induction l with
  | nil => rfl
  | cons x xs ih =>
    cases h : nonBlank x with
    | true =>
      simp [estimateLines, h, List.filter_cons, ih, lineCalories, lineItem]
    | false =>
      simp [estimateLines, h, List.filter_cons, ih]

/-- C1 counterexample: on six copies of the line `"2.5 g stock"` the code's
`total_calories` is `round(1.5) = 2`, while `round` of the sum of the
breakdown's one-decimal-rounded calories (six times `round(0.25, 1) = 0.2`)
is `round(1.2) = 1`, so the claimed invariant fails. -/
theorem c1_counterexample :
    ¬ ((estimate_calories (List.replicate 6 ("2.5 g stock".toList))).total_calories =
        pyRound (((estimate_calories (List.replicate 6 ("2.5 g stock".toList))).breakdown.map
          (fun b => b.calories)).sum)) := by
  with_unfolding_all decide

/-- C1 (amended): for every ingredient list, `total_calories` equals `round`
of the sum of the UNROUNDED per-line calories of the non-blank lines, while
each breakdown item's `calories` field is that line's calories rounded to one
decimal place. -/
theorem c1_total_rounds_unrounded_sum (l : List (List Char)) :
    (estimate_calories l).total_calories =
      pyRound (((l.filter nonBlank).map lineCalories).sum) ∧
    (estimate_calories l).breakdown.map (fun b => b.calories) =
      (l.filter nonBlank).map (fun s => round1 (lineCalories s)) := by
  constructor
  · simp [estimate_calories, estimateLines_eq]
  · simp [estimate_calories, estimateLines_eq, lineItem, List.map_map]

/-- C2 counterexample: on `"2 large eggs"` the leading number 2 is parsed and
the following token `"large"` is not a unit key, yet the returned grams are
200 (conversion factor 100), not 2 (factor 1) as the claim states. -/
theorem c2_counterexample :
    extract_quantity ("2 large eggs".toList) = (200, "eggs".toList) ∧ (200 : ℚ) ≠ 2 := by
  with_unfolding_all decide

/-- C2 (amended): whenever the quantity pattern matches with a captured unit
token that is not a key of the unit table, `extract_quantity` uses a
conversion factor of 100 grams per unit (the `.get(measurement, 100)`
default); the 1-gram factor arises only when no unit token is captured at all
(the measurement then defaults to the table key `'gram'`). -/
theorem c2_unknown_unit_defaults_100 (line g1 u g3 : List Char)
    (h : pyMatchQuantity (stripBoth (line.map toLowerC)) = some ⟨g1, some u, g3⟩)
    (hu : lookupConv u = none) :
    extract_quantity line = (parseNum g1 * 100, stripBoth g3) := by
  simp only [extract_quantity, h, hu, Option.getD]

/-- C2 witness: the amended statement applied to `"2 large eggs"`. -/
theorem c2_witness :
    pyMatchQuantity (stripBoth (("2 large eggs".toList).map toLowerC)) =
      some ⟨"2".toList, some ("large".toList), "eggs".toList⟩ ∧
    lookupConv ("large".toList) = none ∧
    extract_quantity ("2 large eggs".toList) =
      (parseNum ("2".toList) * 100, stripBoth ("eggs".toList)) :=
  ⟨by with_unfolding_all decide, by decide,
   c2_unknown_unit_defaults_100 ("2 large eggs".toList) ("2".toList) ("large".toList)
     ("eggs".toList) (by with_unfolding_all decide) (by decide)⟩

/-- C3 counterexample: on an empty ingredient list and empty steps the score
is 1 + 1 + 0 = 2, outside the claimed range 3–9. -/
theorem c3_counterexample :
    ¬ (3 ≤ (analyze_difficulty [] []).score ∧ (analyze_difficulty [] []).score ≤ 9) := by
  decide

/-- The `score` field is the sum of the three component scores. -/
theorem score_eq (l : List (List Char)) (t : List Char) :
    (analyze_difficulty l t).score =
      ingredientScore ((l.filter (fun i => !(stripBoth i == []))).length) +
        stepScore (count_steps t) + min 3 ((analyze_complexity t).1 / 2) := rfl

/-- C3 (amended): for every ingredients list and steps text the difficulty
score lies in the range 2 to 9 inclusive (the technique score can be 0, so
the lower bound 3 of the claim is wrong; the upper bound 9 holds). -/
theorem c3_score_range (l : List (List Char)) (t : List Char) :
    2 ≤ (analyze_difficulty l t).score ∧ (analyze_difficulty l t).score ≤ 9 := by
  rw [score_eq]
  have hi : 1 ≤ ingredientScore ((l.filter (fun i => !(stripBoth i == []))).length) ∧
      ingredientScore ((l.filter (fun i => !(stripBoth i == []))).length) ≤ 3 := by
    unfold ingredientScore; split_ifs <;> omega
  have hs : 1 ≤ stepScore (count_steps t) ∧ stepScore (count_steps t) ≤ 3 := by
    unfold stepScore; split_ifs <;> omega
  have ht : min 3 ((analyze_complexity t).1 / 2) ≤ 3 := Nat.min_le_left _ _
  omega

/-- C4 counterexample: on the single line `"go 1. then 2. end"` the code
counts the two markers occurring mid-line (`re.findall` is not anchored to
line starts) and returns 2, whereas the claimed formula — markers at line
starts only — yields `max(1, 0) = 1`. -/
theorem c4_counterexample :
    count_steps ("go 1. then 2. end".toList) ≠
      max (lineCount ("go 1. then 2. end".toList))
        (claimLineStartMarkers ("go 1. then 2. end".toList)) := by
  decide

/-- C4 (amended): `count_steps` returns the maximum of the number of
non-empty trimmed lines and the number of `re.findall` matches of digits
followed by a dot or closing parenthesis followed by whitespace, occurring
ANYWHERE in the text (each marker must be followed by whitespace and need
not start a line); empty text gives 0. -/
theorem c4_count_steps_eq :
    (∀ t : List Char, count_steps t = max (lineCount t) (markerScan t)) ∧
    count_steps [] = 0 := by
  constructor
  · intro t
    by_cases h : t = []
    · subst h; decide
    · simp [count_steps, h]
  · decide

/-- C5: the three documented parser examples:
`"2 cups rice" ↦ (480.0, "rice")`, `"500g chicken" ↦ (500.0, "chicken")`,
`"salt" ↦ (100, "salt")`. -/
theorem c5_parser_examples :
    extract_quantity ("2 cups rice".toList) = (480, "rice".toList) ∧
    extract_quantity ("500g chicken".toList) = (500, "chicken".toList) ∧
    extract_quantity ("salt".toList) = (100, "salt".toList) := by
  refine ⟨?_, ?_, ?_⟩ <;> with_unfolding_all decide

/-- The steps text of the C6 example. -/
def bakeText : List Char := "Bake for 2 hours and 30 minutes".toList

/-- C6: `predict_time("Bake for 2 hours and 30 minutes", 5)` finds explicit
time, totals 150 minutes, categorises Long and displays `"2h 30m"`; and in
general a positive explicit-time sum is used as the total (clamped to the
10-minute minimum), independently of the step count and method estimates. -/
theorem c6_explicit_time_overrides :
    ((predict_time bakeText 5).explicit_time_found = true ∧
     (predict_time bakeText 5).total_minutes = 150 ∧
     (predict_time bakeText 5).category = "Long".toList ∧
     (predict_time bakeText 5).time_display = "2h 30m".toList) ∧
    ∀ (text : List Char) (n : ℕ), 0 < extract_explicit_time text →
      (predict_time text n).total_minutes = max 10 (extract_explicit_time text) := by
  constructor
  · refine ⟨?_, ?_, ?_, ?_⟩ <;> with_unfolding_all decide
  · intro text n h
    simp [predict_time, totalMinutes, h]

/-- C6 witness: the override clause applied to the example text with a step
count (7) different from the example's, discharging the positivity
hypothesis there. -/
theorem c6_witness :
    0 < extract_explicit_time bakeText ∧
    (predict_time bakeText 7).total_minutes = max 10 (extract_explicit_time bakeText) :=
  ⟨by with_unfolding_all decide,
   c6_explicit_time_overrides.2 bakeText 7 (by with_unfolding_all decide)⟩

/-- C7: empty inputs hit the defined defaults and nothing can fail:
`estimate_calories []` returns 0 total calories, an empty breakdown and
servings estimate 1; `predict_time` on empty text (and step count 0) returns
the 10-minute minimum — and every call returns at least 10 minutes; and
`analyze_difficulty` on empty inputs returns its Beginner result. -/
theorem c7_empty_inputs_safe :
    estimate_calories [] = ⟨0, [], 1⟩ ∧
    (predict_time [] 0).total_minutes = 10 ∧
    (∀ (s : List Char) (n : ℕ), 10 ≤ (predict_time s n).total_minutes) ∧
    (analyze_difficulty [] []).difficulty = "Beginner".toList := by
  refine ⟨by with_unfolding_all decide, by with_unfolding_all decide, ?_, by decide⟩
  intro s n
  exact Nat.le_max_left _ _

/-- C8: every component is a pure function of its arguments (the lookup
tables are constants and there is no hidden state in the model, mirroring the
source's module-level constant tables), so calling any of them twice with
identical input yields identical output, list orderings included. -/
theorem c8_deterministic (l : List (List Char)) (t : List Char) (n : ℕ)
    (d : List Char) (c s : ℤ) :
    estimate_calories l = estimate_calories l ∧
    analyze_difficulty l t = analyze_difficulty l t ∧
    predict_time t n = predict_time t n ∧
    generate_suggestions l t d c s = generate_suggestions l t d c s :=
  ⟨rfl, rfl, rfl, rfl⟩

/-- C9: whenever no meat keyword occurs as a substring of the joined
lowercased ingredient text but some dairy/egg keyword does, `detect_diet_type`
returns Vegetarian — in particular for plant foods like `"eggplant"`, which
contains `"egg"`. -/
theorem c9_dairy_substring_vegetarian (l : List (List Char))
    (hm : MEAT_INGREDIENTS.any (fun m => occursIn m (ingredientsLower l)) = false)
    (hd : dairy_items.any (fun d => occursIn d (ingredientsLower l)) = true) :
    detect_diet_type l = "Vegetarian".toList := by
  simp [detect_diet_type, hm, hd]

/-- C9 witness: the single-ingredient list `["eggplant"]` matches no meat
keyword, matches the dairy keyword `"egg"` as a substring, and is classified
Vegetarian. -/
theorem c9_witness :
    MEAT_INGREDIENTS.any (fun m => occursIn m (ingredientsLower [("eggplant".toList)])) = false ∧
    dairy_items.any (fun d => occursIn d (ingredientsLower [("eggplant".toList)])) = true ∧
    detect_diet_type [("eggplant".toList)] = "Vegetarian".toList :=
  ⟨by decide, by decide, c9_dairy_substring_vegetarian _ (by decide) (by decide)⟩

/-- C10: the line `"2"` (a number with nothing after it) does not match the
quantity pattern — the pattern requires whitespace and a nonempty remainder
after the number — so `extract_quantity` returns the 100-gram fallback with
the digits as the name. -/
theorem c10_bare_number_no_match :
    pyMatchQuantity (stripBoth (("2".toList).map toLowerC)) = none ∧
    extract_quantity ("2".toList) = (100, "2".toList) := by
  refine ⟨?_, ?_⟩ <;> with_unfolding_all decide

end Recipe
